import Mathlib

/-!
Verification of the animal-rescue backend (src/app.py) against its
specification.  The Python source is shallowly embedded: SQLite tables become
Lean lists, machine floats become exact reals/rationals, Flask handlers become
functions from their inputs (form fields, path parameters, table contents,
autoincrement counter, clock) to an HTTP-level result plus the new table
contents.
-/

namespace AnimalRescue

/-! ## GeoMath: calculate_distance (src/app.py 30-39) -/

/-- Degree-to-radian conversion, `math.radians`. -/
noncomputable def radians (x : ℝ) : ℝ := x * Real.pi / 180

/-- The haversine intermediate `a` computed at src/app.py 35-37:
`sin(dlat/2)**2 + cos(radians(lat1)) * cos(radians(lat2)) * sin(dlon/2)**2`. -/
noncomputable def havTerm (lat1 lon1 lat2 lon2 : ℝ) : ℝ :=
  Real.sin (radians (lat2 - lat1) / 2) ^ 2 +
    Real.cos (radians lat1) * Real.cos (radians lat2) *
      Real.sin (radians (lon2 - lon1) / 2) ^ 2

/-- Haversine great-circle distance, `calculate_distance` (src/app.py 30-39):
`R = 6371`, `c = 2 * asin(sqrt(a))`, result `R * c`. -/
noncomputable def calculate_distance (lat1 lon1 lat2 lon2 : ℝ) : ℝ :=
  let R : ℝ := 6371
  let dlat := radians (lat2 - lat1)
  let dlon := radians (lon2 - lon1)
  let a := Real.sin (dlat / 2) ^ 2 +
    Real.cos (radians lat1) * Real.cos (radians lat2) * Real.sin (dlon / 2) ^ 2
  let c := 2 * Real.arcsin (Real.sqrt a)
  R * c

/-- Angular separation recovered from the haversine term: `2 * asin(sqrt a)`,
the spherical central angle between the two points (for in-range inputs). -/
noncomputable def angSep (lat1 lon1 lat2 lon2 : ℝ) : ℝ :=
  2 * Real.arcsin (Real.sqrt (havTerm lat1 lon1 lat2 lon2))

theorem calculate_distance_eq (lat1 lon1 lat2 lon2 : ℝ) :
    calculate_distance lat1 lon1 lat2 lon2 =
      6371 * (2 * Real.arcsin (Real.sqrt (havTerm lat1 lon1 lat2 lon2))) := rfl

/-! ## Responder directory (the `ngos` table) and find_nearest_ngo -/

/-- A row of the `ngos` table (columns selected at src/app.py 47). -/
structure Ngo where
  id : ℕ
  name : String
  phone : String
  email : String
  whatsapp : String
  latitude : ℝ
  longitude : ℝ

/-- `round(x, 2)` applied to the winning distance at src/app.py 69
(Python rounds half to even; real haversine values are modelled with
round-half-up ties, which no claim depends on). -/
noncomputable def round2 (x : ℝ) : ℝ := (round (x * 100) : ℤ) / 100

/-- The dict built for the nearest responder at src/app.py 63-70. -/
structure NgoResult where
  id : ℕ
  name : String
  phone : String
  email : String
  whatsapp : String
  distance : ℝ

/-- Distance from the target to one responder (src/app.py 59). -/
noncomputable def ngoDist (lat lon : ℝ) (g : Ngo) : ℝ :=
  calculate_distance lat lon g.latitude g.longitude

/-- One iteration of the scan loop (src/app.py 58-70).  `min_distance` starts
at `float('inf')`, so the first responder always replaces the initial `None`;
the running `(nearest, min_distance)` pair is modelled as an `Option`, and the
strict `<` keeps the earlier responder on ties. -/
noncomputable def stepNgo (lat lon : ℝ) (acc : Option (Ngo × ℝ)) (g : Ngo) :
    Option (Ngo × ℝ) :=
  let d := ngoDist lat lon g
  match acc with
  | none => some (g, d)
  | some p => if d < p.2 then some (g, d) else some p

/-- Packaging of the winner into the result dict (src/app.py 63-70). -/
noncomputable def toNgoResult (g : Ngo) (d : ℝ) : NgoResult :=
  { id := g.id, name := g.name, phone := g.phone, email := g.email,
    whatsapp := g.whatsapp, distance := round2 d }

/-- `find_nearest_ngo` (src/app.py 41-73): linear scan of the directory;
returns `None` when the directory is empty.  The rows come back from
`SELECT ... FROM ngos` in rowid (insertion/id) order, which is the list
order here. -/
noncomputable def find_nearest_ngo (lat lon : ℝ) (ngos : List Ngo) :
    Option NgoResult :=
  match ngos.foldl (stepNgo lat lon) none with
  | none => none
  | some p => some (toNgoResult p.1 p.2)

/-- The scan step once a current best exists (the `some` case of `stepNgo`,
abstracted over the distance function): keep the strictly closer responder. -/
noncomputable def stepP (f : Ngo → ℝ) (p : Ngo × ℝ) (n : Ngo) : Ngo × ℝ :=
  if f n < p.2 then (n, f n) else p

/-! ## Python float() parsing

`create_report` converts the latitude/longitude form strings with `float(...)`
and treats `ValueError` as invalid input (src/app.py 230-234).  Python's
`float` also accepts the non-finite literals `inf`/`infinity`/`nan`
(case-insensitively, with an optional sign) — those do NOT raise. -/

/-- A Python float value as relevant here: an exact finite decimal
`m * 10 ^ e` (kept unnormalized, exactly as the literal was written), one of
the two infinities, or NaN. -/
inductive PyFloat where
  | finite (m e : ℤ)
  | inf
  | neginf
  | nan
deriving DecidableEq

/-- The real number denoted by a finite literal `m * 10 ^ e`. -/
noncomputable def litReal (m e : ℤ) : ℝ := (m : ℝ) * 10 ^ e

/-- Negation of a parsed value (for a leading minus sign). -/
def PyFloat.neg : PyFloat → PyFloat
  | .finite m e => .finite (-m) e
  | .inf => .neginf
  | .neginf => .inf
  | .nan => .nan

/-- Consume a run of decimal digits, accumulating their value left to right;
returns the value, how many digits were read, and the rest of the input. -/
def takeDigits : ℕ → ℕ → List Char → ℕ × ℕ × List Char
  | v, n, [] => (v, n, [])
  | v, n, c :: cs =>
    if c.isDigit then takeDigits (10 * v + (c.toNat - 48)) (n + 1) cs
    else (v, n, c :: cs)

/-- Parse an optional exponent suffix `e[±]digits` ending the input; `none`
means a malformed trailer. -/
def parseExp : List Char → Option ℤ
  | [] => some 0
  | c :: cs =>
    if c = 'e' ∨ c = 'E' then
      match cs with
      | '+' :: ds =>
        let r := takeDigits 0 0 ds
        if 0 < r.2.1 ∧ r.2.2 = [] then some (r.1 : ℤ) else none
      | '-' :: ds =>
        let r := takeDigits 0 0 ds
        if 0 < r.2.1 ∧ r.2.2 = [] then some (-(r.1 : ℤ)) else none
      | ds =>
        let r := takeDigits 0 0 ds
        if 0 < r.2.1 ∧ r.2.2 = [] then some (r.1 : ℤ) else none
    else none

/-- Parse `digits[.digits][exponent]` into an exact mantissa/exponent pair
(`ipart.fpart × 10^e` becomes `(ipart * 10^|fpart| + fpart) * 10^(e-|fpart|)`);
at least one mantissa digit is required. -/
def parseDecimal (cs : List Char) : Option (ℤ × ℤ) :=
  let ri := takeDigits 0 0 cs
  match ri.2.2 with
  | '.' :: rest2 =>
    let rf := takeDigits 0 0 rest2
    if ri.2.1 + rf.2.1 = 0 then none
    else
      match parseExp rf.2.2 with
      | some e => some (((ri.1 * 10 ^ rf.2.1 + rf.1 : ℕ) : ℤ), e - (rf.2.1 : ℤ))
      | none => none
  | rest =>
    if ri.2.1 = 0 then none
    else
      match parseExp rest with
      | some e => some (((ri.1 : ℕ) : ℤ), e)
      | none => none

/-- Unsigned part of a float literal: `inf`, `infinity`, `nan`
(case-insensitive) or a decimal literal. -/
def pyFloatCore (cs : List Char) : Option PyFloat :=
  let lower := cs.map Char.toLower
  if lower = ['i', 'n', 'f'] ∨ lower = ['i', 'n', 'f', 'i', 'n', 'i', 't', 'y'] then
    some .inf
  else if lower = ['n', 'a', 'n'] then some .nan
  else (parseDecimal cs).map fun p => .finite p.1 p.2

/-- Optional leading sign. -/
def pyFloatSigned : List Char → Option PyFloat
  | '+' :: cs => pyFloatCore cs
  | '-' :: cs => (pyFloatCore cs).map PyFloat.neg
  | cs => pyFloatCore cs

/-- Model of Python `float(s)`: optional surrounding whitespace, optional
sign, then `inf`/`infinity`/`nan` (case-insensitive) or a decimal literal with
optional fraction and exponent.  (Digit-group underscores, accepted by
Python 3.6+, are not modelled; no claim involves them.)  `none` models the
`ValueError` caught at src/app.py 233. -/
def pyFloat (s : String) : Option PyFloat :=
  pyFloatSigned
    (((s.toList.dropWhile Char.isWhitespace).reverse.dropWhile
        Char.isWhitespace).reverse)

/-! ## Reports table and the HTTP handlers -/

/-- A row of the `reports` table (schema at src/app.py 134-148).  `created_at`
is SQLite's CURRENT_TIMESTAMP, modelled as a monotone natural clock value;
`latitude`/`longitude` store whatever `float()` produced. -/
structure Report where
  id : ℕ
  description : String
  reporter_name : String
  reporter_phone : String
  latitude : PyFloat
  longitude : PyFloat
  image_path : Option String
  status : String
  assigned_ngo_id : Option ℕ
  created_at : ℕ
deriving DecidableEq

/-- The multipart form of POST /api/reports: each field is absent or a
string. -/
structure Submission where
  description : Option String
  reporter_name : Option String
  reporter_phone : Option String
  latitude : Option String
  longitude : Option String
deriving DecidableEq

/-- Python truthiness used by the validation at src/app.py 224-228
(`not all([...])`, `if not latitude`): a form value is falsy when absent or
the empty string. -/
def falsy : Option String → Bool
  | none => true
  | some s => s = ("")

/-- The JSON body + HTTP status produced by create_report.  `error` carries
the code's fixed error messages; for the generic 500 handler it stands for
`str(e)`, whose exact text is not modelled. -/
structure CreateResult where
  httpStatus : ℕ
  message : Option String
  error : Option String
  id : Option ℕ
  statusField : Option String
  assigned_ngo : Option String
  distance_km : Option ℝ

/-- The auto-assignment step of create_report (src/app.py 248-257), wrapped in
its own try/except: `assignRaises` models an exception inside that block.
With a non-finite coordinate the code raises inside the same block
(`math.sin(inf)` is a domain error; with `nan` no responder ever compares
below `inf` and line 72 subscripts `None`) whenever the directory is
non-empty, and `find_nearest_ngo` returns `None` directly when it is empty:
either way the caught outcome is "no assignment". -/
noncomputable def assignStep (lat lon : PyFloat) (ngos : List Ngo)
    (assignRaises : Bool) : Option NgoResult :=
  if assignRaises then none
  else
    match lat, lon with
    | .finite m1 e1, .finite m2 e2 => find_nearest_ngo (litReal m1 e1) (litReal m2 e2) ngos
    | _, _ => none

/-- `create_report` (src/app.py 213-295).  `nextId` models the autoincrement
id handed out by the insert, `now` the insert's CURRENT_TIMESTAMP;
`assignRaises` models an exception inside the inner try around
`find_nearest_ngo`, `notifyRaises` an exception raised by
`send_notifications`, which is NOT wrapped in an inner try: it propagates to
the outer handler (src/app.py 291-295) after the row was committed.  The photo
field is not modelled (no claim involves it): `image_path` is stored as
`None`.  Returns the HTTP result, the new reports table, and whether
notifications were dispatched. -/
noncomputable def create_report (sub : Submission) (ngos : List Ngo)
    (db : List Report) (nextId now : ℕ) (assignRaises notifyRaises : Bool) :
    CreateResult × List Report × Bool :=
  if falsy sub.description || falsy sub.reporter_name ||
      falsy sub.reporter_phone then
    (⟨400, none, some ("Missing required fields"), none, none, none, none⟩,
      db, false)
  else if falsy sub.latitude || falsy sub.longitude then
    (⟨400, none, some ("Location is mandatory!"), none, none, none, none⟩,
      db, false)
  else
    match pyFloat (sub.latitude.getD ("")), pyFloat (sub.longitude.getD ("")) with
    | some latf, some lonf =>
      let nearest := assignStep latf lonf ngos assignRaises
      let report : Report :=
        { id := nextId,
          description := sub.description.getD (""),
          reporter_name := sub.reporter_name.getD (""),
          reporter_phone := sub.reporter_phone.getD (""),
          latitude := latf, longitude := lonf,
          image_path := none,
          status := ("PENDING"),
          assigned_ngo_id := nearest.map (fun n => n.id),
          created_at := now }
      let db2 := db ++ [report]
      match nearest with
      | some n =>
        if notifyRaises then
          (⟨500, none, some ("<exception text>"), none, none, none, none⟩,
            db2, false)
        else
          (⟨201, some ("Report created! NGO notified."), none, some nextId,
              some ("PENDING"), some n.name, some n.distance⟩, db2, true)
      | none =>
        (⟨201, some ("Report created! NGO notified."), none, some nextId,
            some ("PENDING"), none, none⟩, db2, false)
    | _, _ =>
      (⟨400, none, some ("Invalid coordinates"), none, none, none, none⟩,
        db, false)

/-- The JSON body + HTTP status produced by update_status. -/
structure UpdateResult where
  httpStatus : ℕ
  message : Option String
  error : Option String
  id : Option ℕ
  statusField : Option String
deriving DecidableEq

/-- `update_status` (src/app.py 297-316): validates the status value against
the fixed allow-list, then runs `UPDATE reports SET status = ? WHERE id = ?`,
which silently affects zero rows when the id is absent, and returns 200
regardless. -/
def update_status (db : List Report) (rid : ℕ) (newStatus : Option String) :
    UpdateResult × List Report :=
  match newStatus with
  | some s =>
    if s = ("PENDING") ∨ s = ("ON_THE_WAY") ∨ s = ("RESOLVED") then
      (⟨200, some ("Updated"), none, some rid, some s⟩,
        db.map fun r => if r.id = rid then { r with status := s } else r)
    else (⟨400, none, some ("Invalid status"), none, none⟩, db)
  | none => (⟨400, none, some ("Invalid status"), none, none⟩, db)

/-- The columns selected by the list endpoint (src/app.py 191-199):
id, description, image_path, status, created_at — and nothing else. -/
structure ListRow where
  id : ℕ
  description : String
  image_path : Option String
  status : String
  created_at : ℕ
deriving DecidableEq

/-- Projection of a stored report onto the selected columns. -/
def listProj (r : Report) : ListRow :=
  ⟨r.id, r.description, r.image_path, r.status, r.created_at⟩

/-- The ORDER BY created_at DESC comparison on projected rows. -/
def rowLe (x y : ListRow) : Prop := y.created_at ≤ x.created_at

instance : DecidableRel rowLe := fun x y => Nat.decLe y.created_at x.created_at

instance : IsTotal ListRow rowLe :=
  ⟨fun a b => Nat.le_total b.created_at a.created_at⟩

instance : IsTrans ListRow rowLe :=
  ⟨fun _ _ _ hab hbc => le_trans hbc hab⟩

/-- `get_reports` (src/app.py 182-211): `SELECT id, description, image_path,
status, created_at FROM reports [WHERE status != 'RESOLVED'] ORDER BY
created_at DESC`.  ORDER BY is modelled as a stable sort of the projected rows
on created_at descending. -/
def get_reports (onlyOpen : Bool) (db : List Report) : List ListRow :=
  let rows := if onlyOpen then db.filter (fun r => r.status != ("RESOLVED")) else db
  List.insertionSort rowLe (rows.map listProj)

/-- Modelled from the spec: the report-detail operation
GET /api/reports/{id}/details (spec.md section 4.3 `getDetail`, section 6
table) has no handler in src/app.py; per the spec it returns the full stored
report, sensitive fields included, or NotFound (404) when no report has the
id. -/
def get_report_details (db : List Report) (rid : ℕ) : Option Report :=
  db.find? (fun r => r.id == rid)

/-! ## Concrete fixtures used by witnesses and counterexamples -/

/-- A well-formed submission. -/
def sub0 : Submission :=
  ⟨some ("injured dog"), some ("Asha"), some ("9876500000"), some ("10"),
    some ("20")⟩

/-- A submission whose latitude is the non-numeric string `abc`. -/
def subAbc : Submission :=
  ⟨some ("injured dog"), some ("Asha"), some ("9876500000"), some ("abc"),
    some ("20")⟩

/-- A submission whose latitude is the string `inf`, which Python's `float`
accepts. -/
def subInf : Submission :=
  ⟨some ("injured dog near park"), some ("Asha"), some ("9876500000"),
    some ("inf"), some ("20")⟩

/-- One registered responder (the Delhi sample row of src/app.py 157). -/
noncomputable def g0 : Ngo :=
  ⟨1, "Animal Aid Foundation", "9876543210", "contact@animalaid.org",
    "9876543210", 28.6139, 77.209⟩

/-- A stored report with id 17. -/
def r17 : Report :=
  ⟨17, "cat stuck on wall", "Ravi", "9876543299", .finite 10 0, .finite 20 0,
    none, "PENDING", none, 3⟩

/-- A stored pending report. -/
def rLat10 : Report :=
  ⟨1, "dog", "A", "111", .finite 10 0, .finite 20 0, none, "PENDING", none, 3⟩

/-- Same as `rLat10` except for the latitude. -/
def rLat11 : Report :=
  ⟨1, "dog", "A", "111", .finite 11 0, .finite 20 0, none, "PENDING", none, 3⟩

/-- Same as `rLat10` except for reporter identity and coordinates (the
columns the list endpoint does not select). -/
def rPriv : Report :=
  ⟨1, "dog", "Z", "999", .finite 55 0, .finite 66 0, none, "PENDING", none, 3⟩

/-- A resolved report. -/
def rRes : Report :=
  ⟨2, "resolved case", "B", "222", .finite 1 0, .finite 2 0, none, "RESOLVED",
    none, 7⟩

/-! ## Helper lemmas about the creation workflow -/

theorem assignStep_nil (lat lon : PyFloat) (aR : Bool) :
    assignStep lat lon [] aR = none := by
  unfold assignStep
  cases aR with
  | true => rfl
  | false => cases lat <;> cases lon <;> rfl

theorem create_report_db_of_valid (sub : Submission) (ngos : List Ngo)
    (db : List Report) (nextId now : ℕ) (aR nR : Bool)
    (hd : falsy sub.description = false) (hn : falsy sub.reporter_name = false)
    (hp : falsy sub.reporter_phone = false) (hla : falsy sub.latitude = false)
    (hlo : falsy sub.longitude = false) (latf lonf : PyFloat)
    (hplat : pyFloat (sub.latitude.getD ("")) = some latf)
    (hplon : pyFloat (sub.longitude.getD ("")) = some lonf) :
    (create_report sub ngos db nextId now aR nR).2.1 =
      db ++ [⟨nextId, sub.description.getD (""), sub.reporter_name.getD (""),
        sub.reporter_phone.getD (""), latf, lonf, none, ("PENDING"),
        (assignStep latf lonf ngos aR).map (fun n => n.id), now⟩] := by
  unfold create_report
  rw [hd, hn, hp, hla, hlo]
  simp only [Bool.or_self, Bool.false_or, if_neg (by simp : ¬(false = true))]
  rw [hplat, hplon]
  cases hassign : assignStep latf lonf ngos aR with
  | none => simp [hassign]
  | some n => cases nR <;> simp [hassign]

theorem assignStep_raise (lat lon : PyFloat) (ngos : List Ngo) :
    assignStep lat lon ngos true = none := by
  unfold assignStep
  rfl

theorem create_report_valid_unassigned (sub : Submission) (ngos : List Ngo)
    (db : List Report) (nextId now : ℕ) (aR nR : Bool)
    (hd : falsy sub.description = false) (hn : falsy sub.reporter_name = false)
    (hp : falsy sub.reporter_phone = false) (hla : falsy sub.latitude = false)
    (hlo : falsy sub.longitude = false) (latf lonf : PyFloat)
    (hplat : pyFloat (sub.latitude.getD ("")) = some latf)
    (hplon : pyFloat (sub.longitude.getD ("")) = some lonf)
    (hassign : assignStep latf lonf ngos aR = none) :
    create_report sub ngos db nextId now aR nR =
      (⟨201, some ("Report created! NGO notified."), none, some nextId,
          some ("PENDING"), none, none⟩,
        db ++ [⟨nextId, sub.description.getD (""), sub.reporter_name.getD (""),
          sub.reporter_phone.getD (""), latf, lonf, none, ("PENDING"), none,
          now⟩],
        false) := by
  unfold create_report
  rw [hd, hn, hp, hla, hlo]
  rw [if_neg (by decide : ¬((false || false || false : Bool) = true)),
    if_neg (by decide : ¬((false || false : Bool) = true)), hplat, hplon]
  dsimp only
  rw [hassign]
  rfl

theorem create_report_valid_assigned_ok (sub : Submission) (ngos : List Ngo)
    (db : List Report) (nextId now : ℕ) (aR : Bool)
    (hd : falsy sub.description = false) (hn : falsy sub.reporter_name = false)
    (hp : falsy sub.reporter_phone = false) (hla : falsy sub.latitude = false)
    (hlo : falsy sub.longitude = false) (latf lonf : PyFloat)
    (hplat : pyFloat (sub.latitude.getD ("")) = some latf)
    (hplon : pyFloat (sub.longitude.getD ("")) = some lonf) (n : NgoResult)
    (hassign : assignStep latf lonf ngos aR = some n) :
    create_report sub ngos db nextId now aR false =
      (⟨201, some ("Report created! NGO notified."), none, some nextId,
          some ("PENDING"), some n.name, some n.distance⟩,
        db ++ [⟨nextId, sub.description.getD (""), sub.reporter_name.getD (""),
          sub.reporter_phone.getD (""), latf, lonf, none, ("PENDING"),
          some n.id, now⟩],
        true) := by
  unfold create_report
  rw [hd, hn, hp, hla, hlo]
  rw [if_neg (by decide : ¬((false || false || false : Bool) = true)),
    if_neg (by decide : ¬((false || false : Bool) = true)), hplat, hplon]
  dsimp only
  rw [hassign]
  rfl

theorem create_report_valid_notify_raise (sub : Submission) (ngos : List Ngo)
    (db : List Report) (nextId now : ℕ) (aR : Bool)
    (hd : falsy sub.description = false) (hn : falsy sub.reporter_name = false)
    (hp : falsy sub.reporter_phone = false) (hla : falsy sub.latitude = false)
    (hlo : falsy sub.longitude = false) (latf lonf : PyFloat)
    (hplat : pyFloat (sub.latitude.getD ("")) = some latf)
    (hplon : pyFloat (sub.longitude.getD ("")) = some lonf) (n : NgoResult)
    (hassign : assignStep latf lonf ngos aR = some n) :
    create_report sub ngos db nextId now aR true =
      (⟨500, none, some ("<exception text>"), none, none, none, none⟩,
        db ++ [⟨nextId, sub.description.getD (""), sub.reporter_name.getD (""),
          sub.reporter_phone.getD (""), latf, lonf, none, ("PENDING"),
          some n.id, now⟩],
        false) := by
  unfold create_report
  rw [hd, hn, hp, hla, hlo]
  rw [if_neg (by decide : ¬((false || false || false : Bool) = true)),
    if_neg (by decide : ¬((false || false : Bool) = true)), hplat, hplon]
  dsimp only
  rw [hassign]
  rfl

theorem get_report_details_append_self (db : List Report) (r : Report)
    (h : ∀ x ∈ db, x.id ≠ r.id) :
    get_report_details (db ++ [r]) r.id = some r := by
  induction db with
  | nil => simp [get_report_details]
  | cons x t ih =>
    have hx : x.id ≠ r.id := h x (List.mem_cons_self x t)
    have ht : ∀ y ∈ t, y.id ≠ r.id := fun y hy => h y (List.mem_cons_of_mem x hy)
    have := ih ht
    simpa [get_report_details, List.find?_cons, hx] using this

theorem get_report_details_eq_none (db : List Report) (rid : ℕ)
    (h : ∀ r ∈ db, r.id ≠ rid) : get_report_details db rid = none := by
  unfold get_report_details
  rw [List.find?_eq_none]
  intro x hx
  simpa using h x hx

/-! ## Properties of get_reports (claim C5) -/

theorem filter_map_listProj (p : String → Bool) (db : List Report) :
    (db.filter (fun r => p r.status)).map listProj =
      (db.map listProj).filter (fun row => p row.status) := by
  induction db with
  | nil => rfl
  | cons r t ih =>
    by_cases h : p r.status <;> simp [List.filter_cons, h, listProj, ih]

theorem get_reports_eq (onlyOpen : Bool) (db : List Report) :
    get_reports onlyOpen db =
      List.insertionSort rowLe
        (if onlyOpen then
          (db.map listProj).filter (fun row => row.status != ("RESOLVED"))
        else db.map listProj) := by
  unfold get_reports
  cases onlyOpen <;> simp [filter_map_listProj (fun s => s != ("RESOLVED"))]

/-- Claim C5, counterexample: the list endpoint does not return "all Report
fields except reporterName and reporterPhone" — two stores whose sole reports
differ in latitude produce identical list responses, so latitude (likewise
longitude and assigned_ngo_id) is not among the returned fields. -/
theorem get_reports_more_fields_dropped :
    get_reports false [rLat10] = get_reports false [rLat11] ∧ rLat10 ≠ rLat11 := by
  decide

/-- Claim C5 (amended): the list operation returns rows ordered by createdAt
descending, containing only id, description, imagePath, status and createdAt
(in particular never reporterName/reporterPhone); with onlyOpen the RESOLVED
reports are excluded; and the output depends only on the non-sensitive
selected columns. -/
theorem get_reports_privacy_order (onlyOpen : Bool) (db : List Report) :
    (get_reports onlyOpen db).Pairwise rowLe ∧
    (get_reports onlyOpen db).Perm
      ((if onlyOpen then db.filter (fun r => r.status != ("RESOLVED")) else db).map
        listProj) ∧
    (onlyOpen = true →
      ∀ row ∈ get_reports onlyOpen db, row.status ≠ ("RESOLVED")) ∧
    (∀ db2, db.map listProj = db2.map listProj →
      get_reports onlyOpen db = get_reports onlyOpen db2) := by
  refine ⟨?_, ?_, ?_, ?_⟩
  · exact List.sorted_insertionSort rowLe _
  · have h := List.perm_insertionSort rowLe
      ((if onlyOpen then db.filter (fun r => r.status != ("RESOLVED")) else db).map
        listProj)
    unfold get_reports
    cases onlyOpen <;> simpa using h
  · rintro rfl row hrow
    have hperm := List.perm_insertionSort rowLe
      ((db.filter (fun r => r.status != ("RESOLVED"))).map listProj)
    have hmem : row ∈ (db.filter (fun r => r.status != ("RESOLVED"))).map listProj := by
      refine hperm.mem_iff.mp ?_
      simpa [get_reports] using hrow
    obtain ⟨r, hr, hproj⟩ := List.mem_map.mp hmem
    have hstat : r.status ≠ ("RESOLVED") := by
      have := List.of_mem_filter hr
      simpa using this
    have : row.status = r.status := by rw [← hproj]; rfl
    rw [this]
    exact hstat
  · intro db2 h
    rw [get_reports_eq, get_reports_eq, h]

/-- Claim C5 witness: the amended statement applied to a concrete store with
one pending and one resolved report, and to a second store differing only in
the unselected (sensitive) columns. -/
theorem get_reports_privacy_order_witness :
    (get_reports true [rLat10, rRes]).Pairwise rowLe ∧
    get_reports true [rLat10, rRes] = get_reports true [rPriv, rRes] ∧
    (⟨1, "dog", none, "PENDING", 3⟩ : ListRow).status ≠ ("RESOLVED") :=
  ⟨(get_reports_privacy_order true [rLat10, rRes]).1,
    (get_reports_privacy_order true [rLat10, rRes]).2.2.2 [rPriv, rRes] (by decide),
    (get_reports_privacy_order true [rLat10, rRes]).2.2.1 rfl _ (by decide)⟩

/-! ## update_status (claim C2) -/

/-- Claim C2, failing input: updating the status of id 999 while only id 17
exists.  The code validates the status value, but the UPDATE silently matches
zero rows and the handler still answers 200 `Updated` — not the 404 NotFound
the claim (and spec) require. -/
theorem update_status_missing_id_returns_200 :
    r17.id ≠ 999 ∧
    update_status [r17] 999 (some ("RESOLVED")) =
      (⟨200, some ("Updated"), none, some 999, some ("RESOLVED")⟩, [r17]) := by
  decide

/-! ## create_report accepts non-finite coordinates (claim C9) -/

/-- Claim C9, failing input: a submission with latitude `inf`.  Python's
`float("inf")` succeeds, so validation passes, the row is inserted with an
infinite latitude, and the handler answers 201 — not the 400 ValidationError
the claim requires for non-finite coordinates. -/
theorem create_report_accepts_inf :
    pyFloat ("inf") = some PyFloat.inf ∧
    (create_report subInf [] [] 1 5 false false).1.httpStatus = 201 ∧
    (create_report subInf [] [] 1 5 false false).2.1 =
      [⟨1, "injured dog near park", "Asha", "9876500000", PyFloat.inf,
        PyFloat.finite 20 0, none, "PENDING", none, 5⟩] := by
  decide

/-! ## Validation (claim C4) -/

/-- Claim C4: when a required text field or coordinate is missing, or a
coordinate string does not parse as a Python float, create_report answers 400
and performs no write: the stored table is unchanged and nothing is
notified. -/
theorem create_report_invalid_400 (sub : Submission) (ngos : List Ngo)
    (db : List Report) (nextId now : ℕ) (aR nR : Bool)
    (h : sub.description = none ∨ sub.reporter_name = none ∨
      sub.reporter_phone = none ∨ sub.latitude = none ∨ sub.longitude = none ∨
      (∃ s, sub.latitude = some s ∧ pyFloat s = none) ∨
      (∃ s, sub.longitude = some s ∧ pyFloat s = none)) :
    (create_report sub ngos db nextId now aR nR).1.httpStatus = 400 ∧
    (create_report sub ngos db nextId now aR nR).2.1 = db ∧
    (create_report sub ngos db nextId now aR nR).2.2 = false := by
  by_cases hb1 : (falsy sub.description || falsy sub.reporter_name ||
      falsy sub.reporter_phone) = true
  · unfold create_report
    rw [if_pos hb1]
    exact ⟨rfl, rfl, rfl⟩
  · by_cases hb2 : (falsy sub.latitude || falsy sub.longitude) = true
    · unfold create_report
      rw [if_neg hb1, if_pos hb2]
      exact ⟨rfl, rfl, rfl⟩
    · have hb1f : (falsy sub.description || falsy sub.reporter_name ||
          falsy sub.reporter_phone) = false := by
        cases hfb : (falsy sub.description || falsy sub.reporter_name ||
            falsy sub.reporter_phone) with
        | false => rfl
        | true => exact absurd hfb hb1
      have hb2f : (falsy sub.latitude || falsy sub.longitude) = false := by
        cases hfb : (falsy sub.latitude || falsy sub.longitude) with
        | false => rfl
        | true => exact absurd hfb hb2
      rw [Bool.or_eq_false_iff, Bool.or_eq_false_iff] at hb1f
      rw [Bool.or_eq_false_iff] at hb2f
      obtain ⟨⟨hd, hn⟩, hp⟩ := hb1f
      obtain ⟨hla, hlo⟩ := hb2f
      rcases h with h | h | h | h | h | ⟨s, hs, hnone⟩ | ⟨s, hs, hnone⟩
      · rw [h] at hd; simp [falsy] at hd
      · rw [h] at hn; simp [falsy] at hn
      · rw [h] at hp; simp [falsy] at hp
      · rw [h] at hla; simp [falsy] at hla
      · rw [h] at hlo; simp [falsy] at hlo
      · have hget : sub.latitude.getD ("") = s := by rw [hs]; rfl
        unfold create_report
        rw [if_neg hb1, if_neg hb2, hget, hnone]
        cases hy : pyFloat (sub.longitude.getD ("")) <;> exact ⟨rfl, rfl, rfl⟩
      · have hget : sub.longitude.getD ("") = s := by rw [hs]; rfl
        unfold create_report
        rw [if_neg hb1, if_neg hb2, hget, hnone]
        cases hx : pyFloat (sub.latitude.getD ("")) <;> exact ⟨rfl, rfl, rfl⟩

/-- Claim C4 witness: the submission with latitude `abc` is rejected with 400
and no row is created. -/
theorem create_report_invalid_400_witness :
    (create_report subAbc [] [] 1 5 false false).1.httpStatus = 400 ∧
    (create_report subAbc [] [] 1 5 false false).2.1 = [] ∧
    (create_report subAbc [] [] 1 5 false false).2.2 = false :=
  create_report_invalid_400 subAbc [] [] 1 5 false false
    (Or.inr (Or.inr (Or.inr (Or.inr (Or.inr (Or.inl
      ⟨("abc"), rfl, by decide⟩))))))

/-! ## Creation with an empty responder directory (claim C7) -/

/-- Claim C7: a valid submission against an empty responder directory still
succeeds with 201; the row is stored without an assignment, the response
carries no assigned_ngo/distance_km, and no notification is dispatched. -/
theorem create_report_empty_directory (sub : Submission) (db : List Report)
    (nextId now : ℕ) (aR nR : Bool)
    (hd : falsy sub.description = false) (hn : falsy sub.reporter_name = false)
    (hp : falsy sub.reporter_phone = false) (hla : falsy sub.latitude = false)
    (hlo : falsy sub.longitude = false) (latf lonf : PyFloat)
    (hplat : pyFloat (sub.latitude.getD ("")) = some latf)
    (hplon : pyFloat (sub.longitude.getD ("")) = some lonf) :
    (create_report sub [] db nextId now aR nR).1.httpStatus = 201 ∧
    (create_report sub [] db nextId now aR nR).1.assigned_ngo = none ∧
    (create_report sub [] db nextId now aR nR).1.distance_km = none ∧
    (create_report sub [] db nextId now aR nR).2.2 = false ∧
    (create_report sub [] db nextId now aR nR).2.1 =
      db ++ [⟨nextId, sub.description.getD (""), sub.reporter_name.getD (""),
        sub.reporter_phone.getD (""), latf, lonf, none, ("PENDING"), none,
        now⟩] := by
  have He := create_report_valid_unassigned sub [] db nextId now aR nR hd hn hp
    hla hlo latf lonf hplat hplon (assignStep_nil latf lonf aR)
  rw [He]
  exact ⟨rfl, rfl, rfl, rfl, rfl⟩

/-- Claim C7 witness: the concrete valid submission against an empty
directory. -/
theorem create_report_empty_directory_witness :
    (create_report sub0 [] [] 1 5 false false).1.httpStatus = 201 ∧
    (create_report sub0 [] [] 1 5 false false).1.assigned_ngo = none ∧
    (create_report sub0 [] [] 1 5 false false).1.distance_km = none ∧
    (create_report sub0 [] [] 1 5 false false).2.2 = false ∧
    (create_report sub0 [] [] 1 5 false false).2.1 =
      [] ++ [⟨1, sub0.description.getD (""), sub0.reporter_name.getD (""),
        sub0.reporter_phone.getD (""), PyFloat.finite 10 0, PyFloat.finite 20 0,
        none, ("PENDING"), none, 5⟩] :=
  create_report_empty_directory sub0 [] 1 5 false false rfl rfl rfl rfl rfl
    (PyFloat.finite 10 0) (PyFloat.finite 20 0) (by decide) (by decide)

/-! ## Shape of the success response (claim C10) -/


/-- Claim C10: whenever create_report answers 201 for a validated submission
it carries the fixed message `Report created! NGO notified.` (even when nobody
was assigned or notified) and status `PENDING`, and the assigned_ngo and
distance_km fields are present exactly when the (caught) assignment step
produced a nearest responder. -/
theorem create_report_success_shape (sub : Submission) (ngos : List Ngo)
    (db : List Report) (nextId now : ℕ) (aR nR : Bool)
    (hd : falsy sub.description = false) (hn : falsy sub.reporter_name = false)
    (hp : falsy sub.reporter_phone = false) (hla : falsy sub.latitude = false)
    (hlo : falsy sub.longitude = false) (latf lonf : PyFloat)
    (hplat : pyFloat (sub.latitude.getD ("")) = some latf)
    (hplon : pyFloat (sub.longitude.getD ("")) = some lonf)
    (h : (create_report sub ngos db nextId now aR nR).1.httpStatus = 201) :
    (create_report sub ngos db nextId now aR nR).1.message =
      some ("Report created! NGO notified.") ∧
    (create_report sub ngos db nextId now aR nR).1.statusField =
      some ("PENDING") ∧
    (create_report sub ngos db nextId now aR nR).1.assigned_ngo.isSome =
      (assignStep latf lonf ngos aR).isSome ∧
    (create_report sub ngos db nextId now aR nR).1.distance_km.isSome =
      (assignStep latf lonf ngos aR).isSome := by
  cases hassign : assignStep latf lonf ngos aR with
  | none =>
    have He := create_report_valid_unassigned sub ngos db nextId now aR nR hd
      hn hp hla hlo latf lonf hplat hplon hassign
    rw [He]
    exact ⟨rfl, rfl, rfl, rfl⟩
  | some n =>
    cases nR with
    | false =>
      have He := create_report_valid_assigned_ok sub ngos db nextId now aR hd
        hn hp hla hlo latf lonf hplat hplon n hassign
      rw [He]
      exact ⟨rfl, rfl, rfl, rfl⟩
    | true =>
      have He := create_report_valid_notify_raise sub ngos db nextId now aR hd
        hn hp hla hlo latf lonf hplat hplon n hassign
      rw [He] at h
      simp at h

/-- Claim C10 witness: the concrete valid submission against the empty
directory yields 201 with the fixed message, PENDING, and no assignment
fields. -/
theorem create_report_success_shape_witness :
    (create_report sub0 [] [] 1 5 false false).1.message =
      some ("Report created! NGO notified.") ∧
    (create_report sub0 [] [] 1 5 false false).1.statusField =
      some ("PENDING") ∧
    (create_report sub0 [] [] 1 5 false false).1.assigned_ngo.isSome =
      (assignStep (PyFloat.finite 10 0) (PyFloat.finite 20 0) [] false).isSome ∧
    (create_report sub0 [] [] 1 5 false false).1.distance_km.isSome =
      (assignStep (PyFloat.finite 10 0) (PyFloat.finite 20 0) [] false).isSome :=
  create_report_success_shape sub0 [] [] 1 5 false false rfl rfl rfl rfl rfl
    (PyFloat.finite 10 0) (PyFloat.finite 20 0) (by decide) (by decide)
    (by decide)

/-! ## Isolation of assignment/notification failures (claim C3) -/

/-- Claim C3, counterexample: `send_notifications` is not wrapped in an inner
try/except, so when it raises after a responder was assigned, the outer
handler answers 500 — not the HTTP-level success the claim asserts — even
though the report row was already committed. -/
theorem create_report_notify_error_counterexample :
    (create_report sub0 [g0] [] 1 5 false true).1.httpStatus = 500 ∧
    (create_report sub0 [g0] [] 1 5 false true).2.1 =
      [⟨1, "injured dog", "Asha", "9876500000", PyFloat.finite 10 0,
        PyFloat.finite 20 0, none, "PENDING", some 1, 5⟩] := by
  exact ⟨rfl, rfl⟩

/-- Claim C3 (amended): once validation succeeds, a failure of the assignment
step is caught and logged and only omits the assignment fields from the 201
response (the row is stored unassigned); but an exception in the notification
step propagates to the generic handler: when a responder was assigned and
notification raises, the response is HTTP 500, although the report row (with
its assignment) has already been stored and committed.  With no failures the
response is 201. -/
theorem create_report_failure_isolation (sub : Submission) (ngos : List Ngo)
    (db : List Report) (nextId now : ℕ) (nR : Bool)
    (hd : falsy sub.description = false) (hn : falsy sub.reporter_name = false)
    (hp : falsy sub.reporter_phone = false) (hla : falsy sub.latitude = false)
    (hlo : falsy sub.longitude = false) (latf lonf : PyFloat)
    (hplat : pyFloat (sub.latitude.getD ("")) = some latf)
    (hplon : pyFloat (sub.longitude.getD ("")) = some lonf) :
    ((create_report sub ngos db nextId now true nR).1.httpStatus = 201 ∧
     (create_report sub ngos db nextId now true nR).1.assigned_ngo = none ∧
     (create_report sub ngos db nextId now true nR).1.distance_km = none ∧
     (create_report sub ngos db nextId now true nR).2.1 =
       db ++ [⟨nextId, sub.description.getD (""), sub.reporter_name.getD (""),
         sub.reporter_phone.getD (""), latf, lonf, none, ("PENDING"), none,
         now⟩]) ∧
    (∀ n, assignStep latf lonf ngos false = some n →
      (create_report sub ngos db nextId now false true).1.httpStatus = 500 ∧
      (create_report sub ngos db nextId now false true).2.2 = false ∧
      (create_report sub ngos db nextId now false true).2.1 =
        db ++ [⟨nextId, sub.description.getD (""), sub.reporter_name.getD (""),
          sub.reporter_phone.getD (""), latf, lonf, none, ("PENDING"),
          some n.id, now⟩]) ∧
    ((create_report sub ngos db nextId now false false).1.httpStatus = 201) := by
  refine ⟨?_, ?_, ?_⟩
  · have He := create_report_valid_unassigned sub ngos db nextId now true nR hd
      hn hp hla hlo latf lonf hplat hplon (assignStep_raise latf lonf ngos)
    rw [He]
    exact ⟨rfl, rfl, rfl, rfl⟩
  · intro n hassign
    have He := create_report_valid_notify_raise sub ngos db nextId now false hd
      hn hp hla hlo latf lonf hplat hplon n hassign
    rw [He]
    exact ⟨rfl, rfl, rfl⟩
  · cases hassign : assignStep latf lonf ngos false with
    | none =>
      have He := create_report_valid_unassigned sub ngos db nextId now false
        false hd hn hp hla hlo latf lonf hplat hplon hassign
      rw [He]
    | some n =>
      have He := create_report_valid_assigned_ok sub ngos db nextId now false
        hd hn hp hla hlo latf lonf hplat hplon n hassign
      rw [He]

/-- Claim C3 witness: the amended statement applied to the concrete valid
submission and the one-responder directory. -/
theorem create_report_failure_isolation_witness :
    ((create_report sub0 [g0] [] 1 5 true false).1.httpStatus = 201 ∧
     (create_report sub0 [g0] [] 1 5 true false).1.assigned_ngo = none ∧
     (create_report sub0 [g0] [] 1 5 true false).1.distance_km = none) ∧
    ((create_report sub0 [g0] [] 1 5 false true).1.httpStatus = 500 ∧
     (create_report sub0 [g0] [] 1 5 false true).2.2 = false) ∧
    ((create_report sub0 [g0] [] 1 5 false false).1.httpStatus = 201) := by
  have H := create_report_failure_isolation sub0 [g0] [] 1 5 false rfl rfl rfl
    rfl rfl (PyFloat.finite 10 0) (PyFloat.finite 20 0) (by decide) (by decide)
  have HB := H.2.1
    (toNgoResult g0 (ngoDist (litReal 10 0) (litReal 20 0) g0)) rfl
  exact ⟨⟨H.1.1, H.1.2.1, H.1.2.2.1⟩, ⟨HB.1, HB.2.1⟩, H.2.2⟩

/-! ## Detail fetch round-trip (claim C6, modelled from the spec) -/

/-- Claim C6: creating a report from a valid submission and fetching its
detail returns the full stored report — the submitted description, reporter
name and phone (the sensitive fields), the parsed coordinates, the assigned
id, PENDING status and the creation timestamp; fetching an id no stored
report has yields NotFound. -/
theorem create_then_detail_roundtrip (sub : Submission) (ngos : List Ngo)
    (db : List Report) (nextId now : ℕ) (aR nR : Bool)
    (hd : falsy sub.description = false) (hn : falsy sub.reporter_name = false)
    (hp : falsy sub.reporter_phone = false) (hla : falsy sub.latitude = false)
    (hlo : falsy sub.longitude = false) (latf lonf : PyFloat)
    (hplat : pyFloat (sub.latitude.getD ("")) = some latf)
    (hplon : pyFloat (sub.longitude.getD ("")) = some lonf)
    (hfresh : ∀ r ∈ db, r.id ≠ nextId) :
    get_report_details (create_report sub ngos db nextId now aR nR).2.1 nextId =
      some ⟨nextId, sub.description.getD (""), sub.reporter_name.getD (""),
        sub.reporter_phone.getD (""), latf, lonf, none, ("PENDING"),
        (assignStep latf lonf ngos aR).map (fun n => n.id), now⟩ ∧
    (∀ rid, (∀ r ∈ (create_report sub ngos db nextId now aR nR).2.1, r.id ≠ rid) →
      get_report_details (create_report sub ngos db nextId now aR nR).2.1 rid =
        none) := by
  have hdb := create_report_db_of_valid sub ngos db nextId now aR nR hd hn hp
    hla hlo latf lonf hplat hplon
  constructor
  · rw [hdb]
    exact get_report_details_append_self db _ (fun x hx => hfresh x hx)
  · intro rid hnot
    exact get_report_details_eq_none _ rid hnot

/-- Claim C6 witness: the concrete valid submission, created into an empty
store, fetched back in full; id 999 yields NotFound. -/
theorem create_then_detail_roundtrip_witness :
    get_report_details (create_report sub0 [] [] 1 5 false false).2.1 1 =
      some ⟨1, sub0.description.getD (""), sub0.reporter_name.getD (""),
        sub0.reporter_phone.getD (""), PyFloat.finite 10 0, PyFloat.finite 20 0,
        none, ("PENDING"), none, 5⟩ ∧
    get_report_details (create_report sub0 [] [] 1 5 false false).2.1 999 =
      none := by
  have H := create_then_detail_roundtrip sub0 [] [] 1 5 false false rfl rfl rfl
    rfl rfl (PyFloat.finite 10 0) (PyFloat.finite 20 0) (by decide) (by decide)
    (by simp)
  exact ⟨H.1, H.2 999 (by decide)⟩

/-! ## Nearest-responder selection (claim C1) -/

theorem stepNgo_some (lat lon : ℝ) (p : Ngo × ℝ) (n : Ngo) :
    stepNgo lat lon (some p) n = some (stepP (ngoDist lat lon) p n) := by
  unfold stepNgo stepP
  exact (apply_ite some _ _ _).symm

theorem foldl_stepNgo_some (lat lon : ℝ) (l : List Ngo) :
    ∀ p : Ngo × ℝ,
      l.foldl (stepNgo lat lon) (some p) =
        some (l.foldl (stepP (ngoDist lat lon)) p) := by
  induction l with
  | nil => intro p; rfl
  | cons n t ih =>
    intro p
    rw [List.foldl_cons, List.foldl_cons, stepNgo_some]
    exact ih _

theorem foldl_stepP_argmin (f : Ngo → ℝ) (l : List Ngo) :
    ∀ b : Ngo, ∃ l1 g l2, b :: l = l1 ++ g :: l2 ∧
      l.foldl (stepP f) (b, f b) = (g, f g) ∧
      (∀ m ∈ l1, f g < f m) ∧ (∀ m ∈ b :: l, f g ≤ f m) := by
  induction l with
  | nil =>
    intro b
    exact ⟨[], b, [], rfl, rfl, by simp, by simp⟩
  | cons n t ih =>
    intro b
    rcases lt_or_le (f n) (f b) with h | h
    · obtain ⟨l1, g, l2, hsplit, hfold, hstrict, hmin⟩ := ih n
      refine ⟨b :: l1, g, l2, ?_, ?_, ?_, ?_⟩
      · rw [List.cons_append, ← hsplit]
      · rw [List.foldl_cons,
          show stepP f (b, f b) n = (n, f n) from if_pos h]
        exact hfold
      · intro m hm
        rcases List.mem_cons.mp hm with rfl | hm'
        · exact lt_of_le_of_lt (hmin n (List.mem_cons_self n t)) h
        · exact hstrict m hm'
      · intro m hm
        rcases List.mem_cons.mp hm with rfl | hm'
        · exact le_of_lt (lt_of_le_of_lt (hmin n (List.mem_cons_self n t)) h)
        · exact hmin m hm'
    · obtain ⟨l1, g, l2, hsplit, hfold, hstrict, hmin⟩ := ih b
      have hstep : (n :: t).foldl (stepP f) (b, f b) = (g, f g) := by
        rw [List.foldl_cons,
          show stepP f (b, f b) n = (b, f b) from if_neg (not_lt.mpr h)]
        exact hfold
      rcases l1 with _ | ⟨x, r⟩
      · simp only [List.nil_append] at hsplit
        injection hsplit with h1 h2
        subst h1
        subst h2
        refine ⟨[], b, n :: t, rfl, hstep, by simp, ?_⟩
        intro m hm
        rcases List.mem_cons.mp hm with rfl | hm'
        · exact le_refl _
        · rcases List.mem_cons.mp hm' with rfl | hm''
          · exact h
          · exact hmin m (List.mem_cons_of_mem b hm'')
      · rw [List.cons_append] at hsplit
        injection hsplit with h1 h2
        subst h1
        have hgb : f g < f b := hstrict b (List.mem_cons_self b r)
        refine ⟨b :: n :: r, g, l2, ?_, hstep, ?_, ?_⟩
        · rw [h2, List.cons_append, List.cons_append]
        · intro m hm
          rcases List.mem_cons.mp hm with rfl | hm'
          · exact hgb
          · rcases List.mem_cons.mp hm' with rfl | hm''
            · exact lt_of_lt_of_le hgb h
            · exact hstrict m (List.mem_cons_of_mem b hm'')
        · intro m hm
          rcases List.mem_cons.mp hm with rfl | hm'
          · exact hmin _ (List.mem_cons_self _ _)
          · rcases List.mem_cons.mp hm' with rfl | hm''
            · exact le_of_lt (lt_of_lt_of_le hgb h)
            · exact hmin m (List.mem_cons_of_mem _ hm'')

/-- Claim C1: for a non-empty responder directory (listed in id order, as
SELECT returns rowid order), find_nearest_ngo returns the responder whose
haversine distance to the target is minimal, packaged with its rounded
distance; on ties the first encountered — equivalently lowest-id — responder
wins; for an empty directory it returns none. -/
theorem find_nearest_ngo_spec (lat lon : ℝ) (ngos : List Ngo)
    (hsorted : ngos.Pairwise (fun a b => a.id < b.id)) :
    (find_nearest_ngo lat lon [] = none) ∧
    (ngos ≠ [] → ∃ g, g ∈ ngos ∧
      find_nearest_ngo lat lon ngos =
        some (toNgoResult g (ngoDist lat lon g)) ∧
      (∀ m ∈ ngos, ngoDist lat lon g ≤ ngoDist lat lon m) ∧
      (∀ m ∈ ngos, ngoDist lat lon m = ngoDist lat lon g → g.id ≤ m.id)) := by
  refine ⟨rfl, ?_⟩
  intro hne
  cases ngos with
  | nil => exact absurd rfl hne
  | cons n t =>
    obtain ⟨l1, g, l2, hsplit, hfold, hstrict, hmin⟩ :=
      foldl_stepP_argmin (ngoDist lat lon) t n
    refine ⟨g, ?_, ?_, ?_, ?_⟩
    · rw [hsplit]
      exact List.mem_append_right l1 (List.mem_cons_self g l2)
    · unfold find_nearest_ngo
      rw [List.foldl_cons,
        show stepNgo lat lon none n = some (n, ngoDist lat lon n) from rfl,
        foldl_stepNgo_some, hfold]
    · exact hmin
    · intro m hm heq
      rw [hsplit] at hm hsorted
      rcases List.mem_append.mp hm with hm1 | hm2
      · exact absurd heq.symm (ne_of_lt (hstrict m hm1))
      · rcases List.mem_cons.mp hm2 with rfl | hm3
        · exact le_refl _
        · have hp : (g :: l2).Pairwise (fun a b => a.id < b.id) :=
            hsorted.sublist (List.sublist_append_right l1 (g :: l2))
          exact le_of_lt ((List.pairwise_cons.mp hp).1 m hm3)

/-- Claim C1 witness: the singleton directory containing the Delhi responder:
it is returned as the nearest, with trivially minimal distance and id. -/
theorem find_nearest_ngo_spec_witness :
    (find_nearest_ngo (litReal 10 0) (litReal 20 0) [] = none) ∧
    (∃ g, g ∈ [g0] ∧
      find_nearest_ngo (litReal 10 0) (litReal 20 0) [g0] =
        some (toNgoResult g (ngoDist (litReal 10 0) (litReal 20 0) g)) ∧
      (∀ m ∈ [g0], ngoDist (litReal 10 0) (litReal 20 0) g ≤
        ngoDist (litReal 10 0) (litReal 20 0) m) ∧
      (∀ m ∈ [g0], ngoDist (litReal 10 0) (litReal 20 0) m =
        ngoDist (litReal 10 0) (litReal 20 0) g → g.id ≤ m.id)) :=
  ⟨(find_nearest_ngo_spec (litReal 10 0) (litReal 20 0) [g0] (by simp)).1,
    (find_nearest_ngo_spec (litReal 10 0) (litReal 20 0) [g0] (by simp)).2
      (by simp)⟩

/-! ## Properties of the haversine distance (claim C8) -/

theorem radians_ninety : radians 90 = Real.pi / 2 := by
  unfold radians
  ring

theorem radians_neg_ninety : radians (-90) = -(Real.pi / 2) := by
  unfold radians
  ring

theorem cos_radians_nonneg {a : ℝ} (h1 : -90 ≤ a) (h2 : a ≤ 90) :
    0 ≤ Real.cos (radians a) := by
  apply Real.cos_nonneg_of_mem_Icc
  rw [Set.mem_Icc]
  constructor
  · unfold radians
    nlinarith [Real.pi_pos,
      mul_nonneg (show (0:ℝ) ≤ a + 90 by linarith) Real.pi_pos.le]
  · unfold radians
    nlinarith [Real.pi_pos,
      mul_nonneg (show (0:ℝ) ≤ 90 - a by linarith) Real.pi_pos.le]

theorem havTerm_nonneg {a1 o1 a2 o2 : ℝ} (h1 : -90 ≤ a1) (h2 : a1 ≤ 90)
    (h3 : -90 ≤ a2) (h4 : a2 ≤ 90) : 0 ≤ havTerm a1 o1 a2 o2 := by
  unfold havTerm
  have c1 := cos_radians_nonneg h1 h2
  have c2 := cos_radians_nonneg h3 h4
  have s1 := sq_nonneg (Real.sin (radians (a2 - a1) / 2))
  have s2 := sq_nonneg (Real.sin (radians (o2 - o1) / 2))
  have hprod := mul_nonneg (mul_nonneg c1 c2) s2
  linarith

theorem havTerm_comm (a1 o1 a2 o2 : ℝ) :
    havTerm a2 o2 a1 o1 = havTerm a1 o1 a2 o2 := by
  unfold havTerm
  rw [show radians (a1 - a2) / 2 = -(radians (a2 - a1) / 2) by
      unfold radians; ring,
    show radians (o1 - o2) / 2 = -(radians (o2 - o1) / 2) by
      unfold radians; ring,
    Real.sin_neg, Real.sin_neg]
  ring

theorem havTerm_self (a o : ℝ) : havTerm a o a o = 0 := by
  unfold havTerm
  rw [sub_self, sub_self, show radians 0 / 2 = (0:ℝ) by unfold radians; ring,
    Real.sin_zero]
  ring

theorem calculate_distance_zero_iff_hav (a1 o1 a2 o2 : ℝ)
    (hge : 0 ≤ havTerm a1 o1 a2 o2) :
    (calculate_distance a1 o1 a2 o2 = 0 ↔ havTerm a1 o1 a2 o2 = 0) := by
  rw [calculate_distance_eq]
  constructor
  · intro h
    have h1 : Real.arcsin (Real.sqrt (havTerm a1 o1 a2 o2)) = 0 := by
      linarith
    have h2 : Real.sqrt (havTerm a1 o1 a2 o2) = 0 :=
      Real.arcsin_eq_zero_iff.mp h1
    have h3 : havTerm a1 o1 a2 o2 ≤ 0 := Real.sqrt_eq_zero'.mp h2
    linarith
  · intro h
    rw [h, Real.sqrt_zero, Real.arcsin_zero]
    ring

theorem sin_half_deg_eq_zero_iff {x : ℝ} (hx1 : -180 ≤ x) (hx2 : x ≤ 180) :
    (Real.sin (radians x / 2) = 0 ↔ x = 0) := by
  rw [show radians x / 2 = x * (Real.pi / 360) by unfold radians; ring]
  constructor
  · intro h
    have hb1 : -Real.pi < x * (Real.pi / 360) := by
      nlinarith [Real.pi_pos,
        mul_nonneg (show (0:ℝ) ≤ x + 180 by linarith) Real.pi_pos.le]
    have hb2 : x * (Real.pi / 360) < Real.pi := by
      nlinarith [Real.pi_pos,
        mul_nonneg (show (0:ℝ) ≤ 180 - x by linarith) Real.pi_pos.le]
    have h0 := (Real.sin_eq_zero_iff_of_lt_of_lt hb1 hb2).mp h
    rcases mul_eq_zero.mp h0 with h' | h'
    · exact h'
    · exfalso
      nlinarith [Real.pi_pos]
  · intro h
    rw [h, zero_mul, Real.sin_zero]

theorem cos_radians_eq_zero_iff {a : ℝ} (h1 : -90 ≤ a) (h2 : a ≤ 90) :
    (Real.cos (radians a) = 0 ↔ a = 90 ∨ a = -90) := by
  constructor
  · intro h
    by_contra hcon
    push_neg at hcon
    obtain ⟨hne1, hne2⟩ := hcon
    have hlt1 : a < 90 := lt_of_le_of_ne h2 hne1
    have hlt2 : -90 < a := lt_of_le_of_ne h1 (Ne.symm hne2)
    have hpos : 0 < Real.cos (radians a) := by
      apply Real.cos_pos_of_mem_Ioo
      rw [Set.mem_Ioo]
      constructor
      · unfold radians
        nlinarith [Real.pi_pos,
          mul_pos (show (0:ℝ) < a + 90 by linarith) Real.pi_pos]
      · unfold radians
        nlinarith [Real.pi_pos,
          mul_pos (show (0:ℝ) < 90 - a by linarith) Real.pi_pos]
    exact (ne_of_gt hpos) h
  · rintro (rfl | rfl)
    · rw [radians_ninety, Real.cos_pi_div_two]
    · rw [radians_neg_ninety, Real.cos_neg, Real.cos_pi_div_two]

theorem sin_lon_eq_zero_iff {x : ℝ} (hx1 : -360 ≤ x) (hx2 : x ≤ 360) :
    (Real.sin (radians x / 2) = 0 ↔ x = 0 ∨ x = 360 ∨ x = -360) := by
  rw [show radians x / 2 = x * (Real.pi / 360) by unfold radians; ring]
  constructor
  · intro h
    obtain ⟨n, hn⟩ := Real.sin_eq_zero_iff.mp h
    have hpi := Real.pi_pos
    have h360 : (360 * (n : ℝ) - x) * Real.pi = 0 := by
      linear_combination 360 * hn
    have hnx : 360 * (n : ℝ) = x := by
      rcases mul_eq_zero.mp h360 with h' | h'
      · linarith
      · exact absurd h' Real.pi_ne_zero
    have hb1 : (-1 : ℝ) ≤ (n : ℝ) := by nlinarith
    have hb2 : ((n : ℝ)) ≤ 1 := by nlinarith
    have hb1' : (-1 : ℤ) ≤ n := by exact_mod_cast hb1
    have hb2' : n ≤ (1 : ℤ) := by exact_mod_cast hb2
    interval_cases n
    · right; right
      push_cast at hnx
      linarith
    · left
      push_cast at hnx
      linarith
    · right; left
      push_cast at hnx
      linarith
  · rintro (rfl | rfl | rfl)
    · rw [zero_mul, Real.sin_zero]
    · rw [show (360:ℝ) * (Real.pi / 360) = Real.pi by ring]
      exact Real.sin_pi
    · rw [show (-360:ℝ) * (Real.pi / 360) = -Real.pi by ring, Real.sin_neg,
        Real.sin_pi, neg_zero]

theorem havTerm_eq_zero_iff {a1 o1 a2 o2 : ℝ}
    (ha1 : -90 ≤ a1) (ha1' : a1 ≤ 90) (ha2 : -90 ≤ a2) (ha2' : a2 ≤ 90)
    (ho1 : -180 ≤ o1) (ho1' : o1 ≤ 180) (ho2 : -180 ≤ o2) (ho2' : o2 ≤ 180) :
    (havTerm a1 o1 a2 o2 = 0 ↔
      a1 = a2 ∧ (a1 = 90 ∨ a1 = -90 ∨ o1 = o2 ∨ o2 - o1 = 360 ∨
        o1 - o2 = 360)) := by
  have c1 := cos_radians_nonneg ha1 ha1'
  have c2 := cos_radians_nonneg ha2 ha2'
  have s1n := sq_nonneg (Real.sin (radians (a2 - a1) / 2))
  have s2n := sq_nonneg (Real.sin (radians (o2 - o1) / 2))
  have hterm2 : 0 ≤ Real.cos (radians a1) * Real.cos (radians a2) *
      Real.sin (radians (o2 - o1) / 2) ^ 2 := mul_nonneg (mul_nonneg c1 c2) s2n
  unfold havTerm
  constructor
  · intro h
    have h1 : Real.sin (radians (a2 - a1) / 2) ^ 2 = 0 := by linarith
    have h2 : Real.cos (radians a1) * Real.cos (radians a2) *
        Real.sin (radians (o2 - o1) / 2) ^ 2 = 0 := by linarith
    have h1' : Real.sin (radians (a2 - a1) / 2) = 0 := sq_eq_zero_iff.mp h1
    have hdiff : a2 - a1 = 0 :=
      (sin_half_deg_eq_zero_iff (by linarith) (by linarith)).mp h1'
    have ha : a1 = a2 := by linarith
    refine ⟨ha, ?_⟩
    rw [← ha] at h2
    rcases mul_eq_zero.mp h2 with hcc0 | hs2
    · rcases mul_eq_zero.mp hcc0 with hc0 | hc0
      · rcases (cos_radians_eq_zero_iff ha1 ha1').mp hc0 with h' | h'
        · exact Or.inl h'
        · exact Or.inr (Or.inl h')
      · rcases (cos_radians_eq_zero_iff ha1 ha1').mp hc0 with h' | h'
        · exact Or.inl h'
        · exact Or.inr (Or.inl h')
    · have hs2' : Real.sin (radians (o2 - o1) / 2) = 0 := sq_eq_zero_iff.mp hs2
      rcases (sin_lon_eq_zero_iff (by linarith) (by linarith)).mp hs2'
        with h' | h' | h'
      · exact Or.inr (Or.inr (Or.inl (by linarith)))
      · exact Or.inr (Or.inr (Or.inr (Or.inl h')))
      · exact Or.inr (Or.inr (Or.inr (Or.inr (by linarith))))
  · rintro ⟨ha, hcase⟩
    rw [← ha, sub_self, show radians 0 / 2 = (0:ℝ) by unfold radians; ring,
      Real.sin_zero]
    rcases hcase with h' | h' | h' | h' | h'
    · rw [h', radians_ninety, Real.cos_pi_div_two]
      ring
    · rw [h', radians_neg_ninety, Real.cos_neg, Real.cos_pi_div_two]
      ring
    · rw [h', sub_self, show radians 0 / 2 = (0:ℝ) by unfold radians; ring,
        Real.sin_zero]
      ring
    · rw [h', show radians 360 / 2 = Real.pi by unfold radians; ring,
        Real.sin_pi]
      ring
    · rw [show o2 - o1 = -360 by linarith,
        show radians (-360) / 2 = -Real.pi by unfold radians; ring,
        Real.sin_neg, Real.sin_pi]
      ring

/-- Claim C8, counterexample: `calculate_distance 90 0 90 100 = 0` although
the coordinate pairs (90, 0) and (90, 100) are distinct — at the poles (and
likewise at longitudes 180 and -180) the formula is zero for unequal pairs,
so "zero only when A and B coincide" fails for coordinate pairs. -/
theorem calculate_distance_zero_at_distinct_points :
    calculate_distance 90 0 90 100 = 0 ∧
    ((90 : ℝ), (0 : ℝ)) ≠ ((90 : ℝ), (100 : ℝ)) := by
  constructor
  · have hh : havTerm 90 0 90 100 = 0 := by
      unfold havTerm
      rw [sub_self, show radians 0 / 2 = (0:ℝ) by unfold radians; ring,
        Real.sin_zero, radians_ninety, Real.cos_pi_div_two]
      ring
    rw [calculate_distance_eq, hh, Real.sqrt_zero, Real.arcsin_zero]
    ring
  · intro h
    have h2 := congrArg Prod.snd h
    norm_num at h2

/-- Claim C8 (amended): calculate_distance is symmetric; it is zero on equal
pairs; it equals 6371 times the angular separation `2*asin(sqrt(havTerm))`
and is monotone in that angular separation; and within the valid coordinate
ranges it is zero exactly when the two pairs denote the same point on the
sphere: equal latitudes and (unless both points sit at a pole) longitudes
equal or differing by a full 360 turn. -/
theorem calculate_distance_props :
    (∀ a1 o1 a2 o2 : ℝ,
      calculate_distance a1 o1 a2 o2 = calculate_distance a2 o2 a1 o1) ∧
    (∀ a o : ℝ, calculate_distance a o a o = 0) ∧
    (∀ a1 o1 a2 o2 : ℝ,
      calculate_distance a1 o1 a2 o2 = 6371 * angSep a1 o1 a2 o2) ∧
    (∀ a1 o1 a2 o2 b1 p1 b2 p2 : ℝ,
      angSep a1 o1 a2 o2 ≤ angSep b1 p1 b2 p2 →
      calculate_distance a1 o1 a2 o2 ≤ calculate_distance b1 p1 b2 p2) ∧
    (∀ a1 o1 a2 o2 : ℝ, -90 ≤ a1 → a1 ≤ 90 → -90 ≤ a2 → a2 ≤ 90 →
      -180 ≤ o1 → o1 ≤ 180 → -180 ≤ o2 → o2 ≤ 180 →
      (calculate_distance a1 o1 a2 o2 = 0 ↔
        a1 = a2 ∧ (a1 = 90 ∨ a1 = -90 ∨ o1 = o2 ∨ o2 - o1 = 360 ∨
          o1 - o2 = 360))) := by
  refine ⟨?_, ?_, ?_, ?_, ?_⟩
  · intro a1 o1 a2 o2
    rw [calculate_distance_eq, calculate_distance_eq, havTerm_comm]
  · intro a o
    rw [calculate_distance_eq, havTerm_self, Real.sqrt_zero, Real.arcsin_zero]
    ring
  · intro a1 o1 a2 o2
    rw [calculate_distance_eq]
    rfl
  · intro a1 o1 a2 o2 b1 p1 b2 p2 h
    rw [calculate_distance_eq, calculate_distance_eq]
    exact mul_le_mul_of_nonneg_left h (by norm_num)
  · intro a1 o1 a2 o2 ha1 ha1' ha2 ha2' ho1 ho1' ho2 ho2'
    rw [calculate_distance_zero_iff_hav a1 o1 a2 o2
      (havTerm_nonneg ha1 ha1' ha2 ha2')]
    exact havTerm_eq_zero_iff ha1 ha1' ha2 ha2' ho1 ho1' ho2 ho2'

/-- Claim C8 witness: distance of a point to itself is zero, and the
range-restricted zero characterization instantiated at the origin. -/
theorem calculate_distance_props_witness :
    calculate_distance 10 20 10 20 = 0 ∧
    (calculate_distance 0 0 0 0 = 0 ↔
      (0 : ℝ) = 0 ∧ ((0 : ℝ) = 90 ∨ (0 : ℝ) = -90 ∨ (0 : ℝ) = 0 ∨
        (0 : ℝ) - 0 = 360 ∨ (0 : ℝ) - 0 = 360)) :=
  ⟨calculate_distance_props.2.1 10 20,
    calculate_distance_props.2.2.2.2 0 0 0 0 (by norm_num) (by norm_num)
      (by norm_num) (by norm_num) (by norm_num) (by norm_num) (by norm_num)
      (by norm_num)⟩

end AnimalRescue
